import Mathlib

/-!
Verification development for the Screwdriver Docker executor
(`screwdriver-cd/executor-docker`).

The executor's `_start` resolves the build image reference, pulls the
launcher and build images, creates a support ("init") container and a build
container, and starts the build container; `_stop` lists the containers
labeled with the build's tracking label and removes each of them.  We embed
this behaviour as pure Lean functions: the resolver as a function on
character lists (JavaScript string `split`/`join` become `splitCh`/`joinCh`),
and `_start`/`_stop` as functions from a runtime oracle to the list of
runtime calls issued together with the final outcome.
-/

namespace DockerExec

/-- JavaScript `String.prototype.split` with a single-character separator,
on the character-list view of a string: `splitCh c l` is the list of
maximal `c`-free segments of `l` (always non-empty; empty segments kept). -/
def splitCh (c : Char) : List Char → List (List Char)
  | [] => [[]]
  | x :: xs =>
    if x = c then [] :: splitCh c xs
    else
      match splitCh c xs with
      | [] => [[x]]
      | h :: t => (x :: h) :: t

/-- JavaScript `Array.prototype.join` with a single-character separator. -/
def joinCh (c : Char) : List (List Char) → List Char
  | [] => []
  | [x] => x
  | x :: y :: t => x ++ c :: joinCh c (y :: t)

/-- Result of the external `docker-parse-image` parser, restricted to the
two fields the executor reads (`name` and `tag`). -/
structure ParsedImage where
  name : List Char
  tag : Option (List Char)
deriving DecidableEq

/-- Modelled from the spec: `_start` parses the build image reference with
the external `docker-parse-image` dependency, whose source is not part of
this repository.  Following §4.1 of the spec and the repository's own test
suite, the parser splits off the last `/`-segment of the reference, reads
an optional `:tag` suffix from that segment (an absent or empty tag is
`null`), and reassembles `name` from the original segments, leaving out an
explicit `:latest` suffix (per the spec, a tag equal to `latest` is
treated as if absent and `repository` round-trips unchanged for
private-registry references). -/
def parsedTag (image : List Char) : Option (List Char) :=
  match splitCh ':' ((splitCh '/' image).getLastD []) with
  | _ :: t :: _ => if t = [] then none else some t
  | _ => none

def parseImageL (image : List Char) : ParsedImage :=
  { name := joinCh '/' ((splitCh '/' image).dropLast ++
        [(splitCh ':' ((splitCh '/' image).getLastD [])).headD []]) ++
      (match parsedTag image with
       | some t => if t = "latest".data then [] else ':' :: t
       | none => [])
    tag := parsedTag image }

/-- The image-reference fixup in `_start`: if a tag is present and differs
from `latest`, strip the trailing `:tag` from the parsed `name`
(`split(':')`, `pop()`, `join(':')`); otherwise keep the parsed name and
use tag `latest`. -/
def resolveImageL (container : List Char) : List Char × List Char :=
  match (parseImageL container).tag with
  | some t =>
    if t ≠ "latest".data then
      (joinCh ':' ((splitCh ':' (parseImageL container).name).dropLast), t)
    else
      ((parseImageL container).name, "latest".data)
  | none => ((parseImageL container).name, "latest".data)

/-- String-level resolver used by `start`: yields the build image
repository (the `fromImage` pull argument) and the tag. -/
def resolveBuildImage (container : String) : String × String :=
  let r := resolveImageL container.data
  (String.mk r.1, String.mk r.2)

/-- A JavaScript annotation value as it can appear under
`config.annotations`: a number or a string. -/
inductive JsVal where
  | num (n : Int)
  | str (s : String)
deriving DecidableEq

/-- JavaScript falsiness for annotation values: `0` and `""` are falsy. -/
def JsVal.falsy : JsVal → Bool
  | .num n => n = 0
  | .str s => s = ""

/-- JavaScript `parseInt(v, 10)`: a number is passed through (all our
numbers are integers); a string is parsed from an optional sign followed
by a digit prefix, `none` standing for `NaN`. -/
def parseIntJs : JsVal → Option Int
  | .num n => some n
  | .str s =>
    let rest : List Char :=
      match s.data with
      | '-' :: r => r
      | '+' :: r => r
      | r => r
    let neg : Bool := match s.data with | '-' :: _ => true | _ => false
    let ds := rest.takeWhile Char.isDigit
    if ds.isEmpty then none
    else
      let v : Int := Int.ofNat (ds.foldl (fun a c => a * 10 + (c.toNat - 48)) 0)
      some (if neg then -v else v)

/-- Default build timeout (minutes): `DEFAULT_BUILD_TIMEOUT = 90`. -/
def DEFAULT_BUILD_TIMEOUT : Int := 90

/-- `parseInt(buildTimeout || DEFAULT_BUILD_TIMEOUT, 10)`: an absent or
falsy annotation value falls back to the default; otherwise the value is
parsed (`none` is JavaScript's `NaN`). -/
def buildTimeout (ann : Option JsVal) : Option Int :=
  match ann with
  | some v => if v.falsy then some DEFAULT_BUILD_TIMEOUT else parseIntJs v
  | none => some DEFAULT_BUILD_TIMEOUT

/-- How the timeout is rendered when the `Cmd` array is joined:
numbers print in decimal, `NaN` prints as `"NaN"`. -/
def timeoutStr (t : Option Int) : String :=
  match t with
  | some n => toString n
  | none => "NaN"

/-- `options.ecosystem`: the Screwdriver API, store and UI URIs. -/
structure Ecosystem where
  api : String
  store : String
  ui : String
deriving DecidableEq

/-- The constructor-held executor configuration: ecosystem, launcher image
and version, and the container-name prefix (defaults applied upstream). -/
structure ExecutorConfig where
  ecosystem : Ecosystem
  launchImage : String
  launchVersion : String
  namePrefix : String
deriving DecidableEq

/-- The per-build `start` configuration object. -/
structure StartConfig where
  buildId : Nat
  container : String
  token : String
  annotations : List (String × JsVal)
deriving DecidableEq

/-- `hoek.reach(config, 'annotations>screwdriver.cd/timeout', ...)`. -/
def timeoutAnn (cfg : StartConfig) : Option JsVal :=
  cfg.annotations.lookup "screwdriver.cd/timeout"

/-- The `HostConfig` object of the build container. -/
structure HostConfig where
  Memory : Nat
  MemoryLimit : Nat
  VolumesFrom : List String
  Privileged : Bool
  Binds : List String
deriving DecidableEq

/-- Options passed to `createContainer` (the label object has the single
key `sdbuild`, kept here as the field `sdbuild`). -/
structure ContainerOpts where
  name : String
  Image : String
  Entrypoint : String
  sdbuild : String
  Cmd : Option (List String)
  hostConfig : Option HostConfig
deriving DecidableEq

/-- Options of the support ("init") container created by `_start`. -/
def initOpts (env : ExecutorConfig) (cfg : StartConfig) : ContainerOpts :=
  { name := env.namePrefix ++ toString cfg.buildId ++ "-init"
    Image := env.launchImage ++ ":" ++ env.launchVersion
    Entrypoint := "/bin/true"
    sdbuild := env.namePrefix ++ toString cfg.buildId
    Cmd := none
    hostConfig := none }

/-- The single joined string of the build container's `Cmd`. -/
def buildCmd (env : ExecutorConfig) (cfg : StartConfig) : List String :=
  [String.intercalate " "
    ["/opt/sd/run.sh",
     "\"" ++ cfg.token ++ "\"",
     env.ecosystem.api,
     env.ecosystem.store,
     timeoutStr (buildTimeout (timeoutAnn cfg)),
     toString cfg.buildId,
     env.ecosystem.ui]]

/-- Options of the build container created by `_start`; `launchId` is the
runtime-assigned id of the support container. -/
def buildOpts (env : ExecutorConfig) (cfg : StartConfig)
    (launchId : String) : ContainerOpts :=
  { name := env.namePrefix ++ toString cfg.buildId ++ "-build"
    Image := cfg.container
    Entrypoint := "/opt/sd/launcher_entrypoint.sh"
    sdbuild := env.namePrefix ++ toString cfg.buildId
    Cmd := some (buildCmd env cfg)
    hostConfig := some
      { Memory := 2 * 1024 * 1024 * 1024
        MemoryLimit := 3 * 1024 * 1024 * 1024
        VolumesFrom := [launchId ++ ":rw"]
        Privileged := true
        Binds := ["/var/run/docker.sock:/var/run/docker.sock"] } }

/-- One call issued against the container runtime. -/
inductive RuntimeCall where
  | createImage (fromImage tag : String)
  | createContainer (opts : ContainerOpts)
  | startContainer (id : String)
  | listContainers (labelFilter : String) (all : Bool)
  | removeContainer (id : String) (v force : Bool)
deriving DecidableEq

def RuntimeCall.isCreateImage : RuntimeCall → Bool
  | .createImage _ _ => true
  | _ => false

def RuntimeCall.isCreateContainer : RuntimeCall → Bool
  | .createContainer _ => true
  | _ => false

def RuntimeCall.isStartContainer : RuntimeCall → Bool
  | .startContainer _ => true
  | _ => false

def RuntimeCall.isListContainers : RuntimeCall → Bool
  | .listContainers _ _ => true
  | _ => false

def RuntimeCall.isRemoveContainer : RuntimeCall → Bool
  | .removeContainer _ _ _ => true
  | _ => false

/-- The runtime oracle: how the Docker daemon answers each call.
`createContainerRes` yields the assigned container id;
`listContainersRes` yields the ids matching a label filter. -/
structure Runtime where
  createImageRes : String → String → Except String Unit
  createContainerRes : ContainerOpts → Except String String
  startContainerRes : String → Except String Unit
  listContainersRes : String → Except String (List String)
  removeContainerRes : String → Except String Unit

/-- The `createImage` call for the launcher image. -/
def launchPullCall (env : ExecutorConfig) : RuntimeCall :=
  .createImage env.launchImage env.launchVersion

/-- The `createImage` call for the resolved build image. -/
def buildPullCall (cfg : StartConfig) : RuntimeCall :=
  .createImage (resolveBuildImage cfg.container).1
    (resolveBuildImage cfg.container).2

/-- `_start`: the sequence of runtime calls issued and the outcome.
`Promise.all` issues both pulls (both appear in the trace even when one
fails; when both fail the temporally first rejection wins, modelled here
as the launcher pull's error).  Each later stage runs only after the
previous one succeeded; `_start` never issues a `removeContainer` call. -/
def startTrace (env : ExecutorConfig) (rt : Runtime) (cfg : StartConfig) :
    List RuntimeCall × Except String Unit :=
  match rt.createImageRes env.launchImage env.launchVersion,
      rt.createImageRes (resolveBuildImage cfg.container).1
        (resolveBuildImage cfg.container).2 with
  | .error e, _ => ([launchPullCall env, buildPullCall cfg], .error e)
  | .ok _, .error e => ([launchPullCall env, buildPullCall cfg], .error e)
  | .ok _, .ok _ =>
    match rt.createContainerRes (initOpts env cfg) with
    | .error e =>
      ([launchPullCall env, buildPullCall cfg,
        .createContainer (initOpts env cfg)], .error e)
    | .ok launchId =>
      match rt.createContainerRes (buildOpts env cfg launchId) with
      | .error e =>
        ([launchPullCall env, buildPullCall cfg,
          .createContainer (initOpts env cfg),
          .createContainer (buildOpts env cfg launchId)], .error e)
      | .ok buildCid =>
        match rt.startContainerRes buildCid with
        | .error e =>
          ([launchPullCall env, buildPullCall cfg,
            .createContainer (initOpts env cfg),
            .createContainer (buildOpts env cfg launchId),
            .startContainer buildCid], .error e)
        | .ok _ =>
          ([launchPullCall env, buildPullCall cfg,
            .createContainer (initOpts env cfg),
            .createContainer (buildOpts env cfg launchId),
            .startContainer buildCid], .ok ())

/-- The label filter `_findContainers` queries:
`sdbuild=${this.prefix}${buildId}`. -/
def stopLabel (env : ExecutorConfig) (buildId : Nat) : String :=
  "sdbuild=" ++ env.namePrefix ++ toString buildId

/-- `_stop`: list the build's containers (including stopped ones), then
remove each returned container with `{v: true, force: true}`.
`Promise.all` dispatches every removal; the outcome is the first
rejection, if any. -/
def stopTrace (env : ExecutorConfig) (rt : Runtime) (buildId : Nat) :
    List RuntimeCall × Except String Unit :=
  match rt.listContainersRes (stopLabel env buildId) with
  | .error e => ([.listContainers (stopLabel env buildId) true], .error e)
  | .ok ids =>
    (.listContainers (stopLabel env buildId) true ::
       ids.map (fun i => .removeContainer i true true),
     match ids.findSome? (fun i =>
         match rt.removeContainerRes i with
         | .error e => some e
         | .ok _ => none) with
     | some e => .error e
     | none => .ok ())

/-- Both image pulls succeeded. -/
def pullsOk (env : ExecutorConfig) (rt : Runtime) (cfg : StartConfig) : Prop :=
  rt.createImageRes env.launchImage env.launchVersion = .ok () ∧
  rt.createImageRes (resolveBuildImage cfg.container).1
    (resolveBuildImage cfg.container).2 = .ok ()

/-- Concrete executor configuration mirroring the repository's test
fixture (`api`/`store`/`ui` ecosystem, default launcher, empty prefix). -/
def envW : ExecutorConfig :=
  { ecosystem := { api := "api", store := "store", ui := "ui" }
    launchImage := "screwdrivercd/launcher"
    launchVersion := "stable"
    namePrefix := "" }

/-- Concrete build request mirroring the repository's test fixture. -/
def cfgW : StartConfig :=
  { buildId := 1992
    container := "node:6"
    token := "123456"
    annotations := [] }

/-- The test-fixture build request with a timeout annotation of 5. -/
def cfgAnn5 : StartConfig :=
  { cfgW with annotations := [("screwdriver.cd/timeout", .num 5)] }

/-- A runtime on which every call succeeds; created containers are
assigned their name with an `Id` suffix, and no container carries the
build label. -/
def rtAllOk : Runtime :=
  { createImageRes := fun _ _ => .ok ()
    createContainerRes := fun o => .ok (o.name ++ "Id")
    startContainerRes := fun _ => .ok ()
    listContainersRes := fun _ => .ok []
    removeContainerRes := fun _ => .ok () }

/-- A runtime on which every `createContainer` call fails. -/
def rtCreateFail : Runtime :=
  { rtAllOk with
    createContainerRes := fun _ => .error "Unable to create container" }

/-- A runtime on which `startContainer` fails. -/
def rtStartFail : Runtime :=
  { rtAllOk with
    startContainerRes := fun _ => .error "Unable to start container" }

/-- A runtime whose container listing returns two matching containers. -/
def rtStop2 : Runtime :=
  { rtAllOk with
    listContainersRes := fun _ => .ok ["c1", "c2"] }

theorem splitCh_ne_nil (c : Char) (l : List Char) : splitCh c l ≠ [] := by
  cases l with
  | nil => simp [splitCh]
  | cons x xs =>
    rw [splitCh]
    by_cases hx : x = c
    · simp [hx]
    · rw [if_neg hx]
      rcases h : splitCh c xs with _ | ⟨h1, t1⟩ <;> simp

theorem splitCh_not_mem {c : Char} {l : List Char} (h : c ∉ l) :
    splitCh c l = [l] := by
  induction l with
  | nil => rfl
  | cons x xs ih =>
    simp only [List.mem_cons, not_or] at h
    rw [splitCh, if_neg (fun hxc => h.1 hxc.symm), ih h.2]

theorem splitCh_append_cons {c : Char} {a : List Char} (b : List Char)
    (h : c ∉ a) : splitCh c (a ++ c :: b) = a :: splitCh c b := by
  induction a with
  | nil => simp [splitCh]
  | cons x xs ih =>
    simp only [List.mem_cons, not_or] at h
    rw [List.cons_append, splitCh, if_neg (fun hxc => h.1 hxc.symm),
      ih h.2]

theorem joinCh_cons_head (c : Char) (a : Char) (h : List Char)
    (rest : List (List Char)) :
    joinCh c ((a :: h) :: rest) = a :: joinCh c (h :: rest) := by
  cases rest <;> simp [joinCh]

theorem joinCh_splitCh (c : Char) (l : List Char) :
    joinCh c (splitCh c l) = l := by
  induction l with
  | nil => rfl
  | cons x xs ih =>
    rw [splitCh]
    by_cases hx : x = c
    · rw [if_pos hx]
      rcases h : splitCh c xs with _ | ⟨h1, t1⟩
      · exact absurd h (splitCh_ne_nil c xs)
      · rw [h] at ih
        rw [joinCh, ih, hx]
        rfl
    · rw [if_neg hx]
      rcases h : splitCh c xs with _ | ⟨h1, t1⟩
      · exact absurd h (splitCh_ne_nil c xs)
      · rw [h] at ih
        rw [joinCh_cons_head, ih]

/-- Splitting a list that contains the separator yields at least two
segments. -/
theorem splitCh_length_ge_two {c : Char} {l : List Char} (h : c ∈ l) :
    2 ≤ (splitCh c l).length := by
  induction l with
  | nil => simp at h
  | cons x xs ih =>
    rw [splitCh]
    by_cases hx : x = c
    · rw [if_pos hx]
      have := splitCh_ne_nil c xs
      rcases hr : splitCh c xs with _ | ⟨h1, t1⟩
      · exact absurd hr this
      · simp
    · rw [if_neg hx]
      rcases List.mem_cons.mp h with h | h
      · exact absurd h.symm hx
      · have h2 := ih h
        rcases hr : splitCh c xs with _ | ⟨h1, t1⟩
        · exact absurd hr (splitCh_ne_nil c xs)
        · rw [hr] at h2
          simpa using h2

/-- Re-joining all but the last segment of `x ++ c :: t` (with `t`
separator-free) recovers `x`: this is the "strip the trailing tag"
computation in `_start` (`split(':')`, `pop()`, `join(':')`). -/
theorem joinCh_dropLast_splitCh (c : Char) {t : List Char} (ht : c ∉ t) :
    ∀ x : List Char, joinCh c ((splitCh c (x ++ c :: t)).dropLast) = x := by
  intro x
  induction x with
  | nil =>
    rw [List.nil_append, splitCh, if_pos rfl, splitCh_not_mem ht]
    simp [joinCh]
  | cons ch x' ih =>
    have hmem : c ∈ x' ++ c :: t := by simp
    have hlen := splitCh_length_ge_two hmem
    rw [List.cons_append, splitCh]
    rcases hr : splitCh c (x' ++ c :: t) with _ | ⟨h1, t1⟩
    · exact absurd hr (splitCh_ne_nil c _)
    · rw [hr] at ih hlen
      have ht1 : t1 ≠ [] := by
        cases t1 with
        | nil => simp at hlen
        | cons a b => simp
      have hdl2 : (h1 :: t1).dropLast = h1 :: t1.dropLast := by
        cases t1 with
        | nil => exact absurd rfl ht1
        | cons a b => simp [List.dropLast]
      by_cases hx : ch = c
      · rw [if_pos hx]
        have hdl : (([] : List Char) :: h1 :: t1).dropLast
            = [] :: h1 :: t1.dropLast := by
          cases t1 with
          | nil => exact absurd rfl ht1
          | cons a b => simp [List.dropLast]
        rw [hdl2] at ih
        rw [hdl, joinCh, ih, hx]
        rfl
      · rw [if_neg hx]
        have hdl : ((ch :: h1) :: t1).dropLast = (ch :: h1) :: t1.dropLast := by
          cases t1 with
          | nil => exact absurd rfl ht1
          | cons a b => simp [List.dropLast]
        rw [hdl]
        rw [hdl2] at ih
        rw [joinCh_cons_head, ih]

example : resolveBuildImage "node:6" = ("node", "6") := by decide
example : resolveBuildImage "node" = ("node", "latest") := by decide
example : resolveBuildImage "docker-registry.foo.bar:1111/someImage:latest"
    = ("docker-registry.foo.bar:1111/someImage", "latest") := by decide
example : resolveBuildImage "docker-registry.foo.bar:1111/someImage"
    = ("docker-registry.foo.bar:1111/someImage", "latest") := by decide
example : resolveBuildImage "host:1111/someImage:v2"
    = ("host:1111/someImage", "v2") := by decide

theorem dropLast_append_getLastD {α : Type} (d : α) :
    ∀ {l : List α}, l ≠ [] → l.dropLast ++ [l.getLastD d] = l
  | [], h => absurd rfl h
  | [a], _ => rfl
  | a :: b :: l, _ => by
    rw [List.dropLast_cons₂, List.getLastD_cons, List.cons_append,
      dropLast_append_getLastD a (List.cons_ne_nil b l)]

/-- Appending a separator-free suffix extends the last segment. -/
theorem splitCh_append_not_mem {c : Char} {b : List Char} (hb : c ∉ b) :
    ∀ a, splitCh c (a ++ b) =
      (splitCh c a).dropLast ++ [(splitCh c a).getLastD [] ++ b] := by
  intro a
  induction a with
  | nil =>
    rw [List.nil_append, splitCh_not_mem hb]
    rfl
  | cons x a' ih =>
    rw [List.cons_append, splitCh, splitCh]
    rcases hr2 : splitCh c a' with _ | ⟨h2, t2⟩
    · exact absurd hr2 (splitCh_ne_nil c a')
    · rw [hr2] at ih
      rw [ih]
      by_cases hx : x = c
      · rw [if_pos hx, if_pos hx]
        cases t2 with
        | nil => rfl
        | cons u v => simp [List.dropLast_cons₂, List.getLastD_cons]
      · rw [if_neg hx, if_neg hx]
        cases t2 with
        | nil => rfl
        | cons u v => simp [List.dropLast_cons₂, List.getLastD_cons]

/-- C2: for every reference of the form `host[:port]/repo:tag` whose tag
segment is present and is not `latest`, the resolver used by `start`
yields the original host-plus-repo string with only the trailing tag
removed (no namespace segment injected) and preserves the tag.  `hp`
is the leading `host[:port]` path segment (it may contain colons but no
slash), `repo` the repository segment, `tag` the tag. -/
theorem resolve_explicit_tag (hp repo tag : String)
    (h1 : '/' ∉ hp.data) (h2 : '/' ∉ repo.data) (h3 : ':' ∉ repo.data)
    (h4 : '/' ∉ tag.data) (h5 : ':' ∉ tag.data)
    (h6 : tag ≠ "") (h7 : tag ≠ "latest") :
    resolveBuildImage (hp ++ "/" ++ repo ++ ":" ++ tag)
      = (hp ++ "/" ++ repo, tag) := by
  have htag : tag.data ≠ [] := fun hn => h6 (String.ext hn)
  have hlat : tag.data ≠ "latest".data := fun hn => h7 (String.ext hn)
  have hdata : (hp ++ "/" ++ repo ++ ":" ++ tag).data
      = hp.data ++ '/' :: (repo.data ++ ':' :: tag.data) := by
    simp [String.data_append]
  have hnm : '/' ∉ repo.data ++ ':' :: tag.data := by
    intro hm
    rcases List.mem_append.mp hm with hm | hm
    · exact h2 hm
    · rcases List.mem_cons.mp hm with hm | hm
      · exact absurd hm (by decide)
      · exact h4 hm
  have hsplit1 : splitCh '/' ((hp ++ "/" ++ repo ++ ":" ++ tag).data)
      = [hp.data, repo.data ++ ':' :: tag.data] := by
    rw [hdata, splitCh_append_cons _ h1, splitCh_not_mem hnm]
  have hsplit2 : splitCh ':' (repo.data ++ ':' :: tag.data)
      = [repo.data, tag.data] := by
    rw [splitCh_append_cons _ h3, splitCh_not_mem h5]
  have htagp : parsedTag ((hp ++ "/" ++ repo ++ ":" ++ tag).data)
      = some tag.data := by
    unfold parsedTag
    rw [hsplit1]
    simp only [List.getLastD_cons, List.getLastD_nil, hsplit2]
    rw [if_neg htag]
  have hname : (parseImageL ((hp ++ "/" ++ repo ++ ":" ++ tag).data)).name
      = (hp.data ++ '/' :: repo.data) ++ ':' :: tag.data := by
    unfold parseImageL
    rw [htagp]
    simp only [hsplit1, List.getLastD_cons, List.getLastD_nil, hsplit2,
      List.dropLast_cons₂, List.dropLast_single, List.headD_cons]
    rw [if_neg hlat]
    simp [joinCh, List.append_assoc]
  have htagp' : (parseImageL ((hp ++ "/" ++ repo ++ ":" ++ tag).data)).tag
      = some tag.data := htagp
  have hres : resolveImageL ((hp ++ "/" ++ repo ++ ":" ++ tag).data)
      = (hp.data ++ '/' :: repo.data, tag.data) := by
    simp only [resolveImageL, htagp', hname]
    rw [if_pos hlat, joinCh_dropLast_splitCh ':' h5]
  simp only [resolveBuildImage]
  rw [hres]
  exact Prod.ext (String.ext (by simp [String.data_append])) (String.ext rfl)

/-- C3: a reference whose last path segment has no tag resolves to the
whole input unchanged with tag `latest`; and an explicit `:latest` tag is
treated exactly as if absent. -/
theorem resolve_no_tag_or_latest :
    (∀ ref : String, ':' ∉ (splitCh '/' ref.data).getLastD [] →
      resolveBuildImage ref = (ref, "latest")) ∧
    (∀ ref : String, ':' ∉ (splitCh '/' ref.data).getLastD [] →
      resolveBuildImage (ref ++ ":latest") = (ref, "latest")) := by
  constructor
  · intro ref h
    have htagp : parsedTag ref.data = none := by
      unfold parsedTag
      rw [splitCh_not_mem h]
    have hname : (parseImageL ref.data).name = ref.data := by
      unfold parseImageL
      rw [htagp]
      simp only [splitCh_not_mem h, List.headD_cons, List.append_nil]
      rw [dropLast_append_getLastD [] (splitCh_ne_nil '/' ref.data),
        joinCh_splitCh]
    have htagp' : (parseImageL ref.data).tag = none := htagp
    simp only [resolveBuildImage, resolveImageL, htagp', hname]
  · intro ref h
    have hdata : (ref ++ ":latest").data = ref.data ++ ':' :: "latest".data := by
      simp [String.data_append]
    have hsplit1 : splitCh '/' ((ref ++ ":latest").data)
        = (splitCh '/' ref.data).dropLast ++
          [(splitCh '/' ref.data).getLastD [] ++ ':' :: "latest".data] := by
      rw [hdata, splitCh_append_not_mem (by decide) ref.data]
    have hsplit2 : splitCh ':'
        ((splitCh '/' ref.data).getLastD [] ++ ':' :: "latest".data)
        = [(splitCh '/' ref.data).getLastD [], "latest".data] := by
      rw [splitCh_append_cons _ h,
        splitCh_not_mem (show ':' ∉ "latest".data by decide)]
    have htagp : parsedTag ((ref ++ ":latest").data) = some "latest".data := by
      unfold parsedTag
      rw [hsplit1, List.getLastD_concat, hsplit2]
      rfl
    have hname : (parseImageL ((ref ++ ":latest").data)).name = ref.data := by
      unfold parseImageL
      rw [htagp]
      simp only [hsplit1, List.getLastD_concat, hsplit2, List.headD_cons,
        List.dropLast_concat]
      rw [dropLast_append_getLastD [] (splitCh_ne_nil '/' ref.data),
        joinCh_splitCh]
      simp
    have htagp' : (parseImageL ((ref ++ ":latest").data)).tag
        = some "latest".data := htagp
    simp only [resolveBuildImage, resolveImageL, htagp', hname]
    rw [if_neg (fun hc => hc rfl)]

theorem resolve_explicit_tag_witness :
    resolveBuildImage ("host:1111" ++ "/" ++ "someImage" ++ ":" ++ "v2")
      = ("host:1111" ++ "/" ++ "someImage", "v2") :=
  resolve_explicit_tag "host:1111" "someImage" "v2" (by decide) (by decide)
    (by decide) (by decide) (by decide) (by decide) (by decide)

theorem resolve_no_tag_or_latest_witness :
    resolveBuildImage "docker-registry.foo.bar:1111/someImage"
      = ("docker-registry.foo.bar:1111/someImage", "latest") ∧
    resolveBuildImage ("docker-registry.foo.bar:1111/someImage" ++ ":latest")
      = ("docker-registry.foo.bar:1111/someImage", "latest") :=
  ⟨resolve_no_tag_or_latest.1 "docker-registry.foo.bar:1111/someImage"
      (by decide),
   resolve_no_tag_or_latest.2 "docker-registry.foo.bar:1111/someImage"
      (by decide)⟩

/-- C1: whenever `start` succeeds, the issued calls are exactly the two
image pulls (launcher image at the configured launch version, then the
resolved build image), the two `createContainer` calls (support container
first, then the build container), and one `startContainer` call on the
build container's id; the build container's `HostConfig.VolumesFrom`
holds the support container's runtime-assigned id. -/
theorem start_success_calls (env : ExecutorConfig) (rt : Runtime)
    (cfg : StartConfig) (h : (startTrace env rt cfg).2 = .ok ()) :
    ∃ launchId buildCid,
      rt.createContainerRes (initOpts env cfg) = .ok launchId ∧
      rt.createContainerRes (buildOpts env cfg launchId) = .ok buildCid ∧
      (startTrace env rt cfg).1 =
        [launchPullCall env, buildPullCall cfg,
         .createContainer (initOpts env cfg),
         .createContainer (buildOpts env cfg launchId),
         .startContainer buildCid] ∧
      (startTrace env rt cfg).1.countP (fun c => c.isCreateImage) = 2 ∧
      (startTrace env rt cfg).1.countP (fun c => c.isCreateContainer) = 2 ∧
      (startTrace env rt cfg).1.countP (fun c => c.isStartContainer) = 1 ∧
      ∃ hc, (buildOpts env cfg launchId).hostConfig = some hc ∧
        launchId ++ ":rw" ∈ hc.VolumesFrom := by
  unfold startTrace at h ⊢
  rcases h1 : rt.createImageRes env.launchImage env.launchVersion
      with e1 | u1 <;> simp only [h1] at h ⊢
  · exact Except.noConfusion h
  rcases h2 : rt.createImageRes (resolveBuildImage cfg.container).1
      (resolveBuildImage cfg.container).2 with e2 | u2 <;>
    simp only [h2] at h ⊢
  · exact Except.noConfusion h
  rcases h3 : rt.createContainerRes (initOpts env cfg) with e3 | launchId <;>
    simp only [h3] at h ⊢
  · exact Except.noConfusion h
  rcases h4 : rt.createContainerRes (buildOpts env cfg launchId)
      with e4 | buildCid <;> simp only [h4] at h ⊢
  · exact Except.noConfusion h
  rcases h5 : rt.startContainerRes buildCid with e5 | u5 <;>
    simp only [h5] at h ⊢
  · exact Except.noConfusion h
  refine ⟨launchId, buildCid, rfl, h4, rfl, ?_, ?_, ?_, _, rfl, ?_⟩
  · simp [launchPullCall, buildPullCall, RuntimeCall.isCreateImage,
      List.countP_cons]
  · simp [launchPullCall, buildPullCall, RuntimeCall.isCreateContainer,
      List.countP_cons]
  · simp [launchPullCall, buildPullCall, RuntimeCall.isStartContainer,
      List.countP_cons]
  · simp [buildOpts]

theorem start_success_calls_witness :
    (startTrace envW rtAllOk cfgW).2 = .ok () ∧
    (startTrace envW rtAllOk cfgW).1.countP (fun c => c.isCreateImage) = 2 ∧
    (startTrace envW rtAllOk cfgW).1.countP (fun c => c.isStartContainer) = 1 := by
  have h := start_success_calls envW rtAllOk cfgW rfl
  obtain ⟨lId, bCid, -, -, -, hci, -, hsc, -⟩ := h
  exact ⟨rfl, hci, hsc⟩

/-- C4: a failing `createContainer` makes `start` reject with that same
error with `startContainer` never issued; a failing `startContainer`
makes `start` reject with that error while both created containers
remain — in all cases `start` issues no `removeContainer` call. -/
theorem start_failure_no_rollback (env : ExecutorConfig) (rt : Runtime)
    (cfg : StartConfig) :
    (∀ e, pullsOk env rt cfg →
      rt.createContainerRes (initOpts env cfg) = .error e →
      (startTrace env rt cfg).2 = .error e ∧
      (startTrace env rt cfg).1.countP (fun c => c.isStartContainer) = 0 ∧
      (startTrace env rt cfg).1.countP (fun c => c.isRemoveContainer) = 0) ∧
    (∀ launchId e, pullsOk env rt cfg →
      rt.createContainerRes (initOpts env cfg) = .ok launchId →
      rt.createContainerRes (buildOpts env cfg launchId) = .error e →
      (startTrace env rt cfg).2 = .error e ∧
      (startTrace env rt cfg).1.countP (fun c => c.isStartContainer) = 0 ∧
      (startTrace env rt cfg).1.countP (fun c => c.isRemoveContainer) = 0) ∧
    (∀ launchId buildCid e, pullsOk env rt cfg →
      rt.createContainerRes (initOpts env cfg) = .ok launchId →
      rt.createContainerRes (buildOpts env cfg launchId) = .ok buildCid →
      rt.startContainerRes buildCid = .error e →
      (startTrace env rt cfg).2 = .error e ∧
      RuntimeCall.createContainer (initOpts env cfg) ∈ (startTrace env rt cfg).1 ∧
      RuntimeCall.createContainer (buildOpts env cfg launchId)
        ∈ (startTrace env rt cfg).1 ∧
      (startTrace env rt cfg).1.countP (fun c => c.isRemoveContainer) = 0) := by
  refine ⟨?_, ?_, ?_⟩
  · intro e hp h3
    unfold startTrace
    simp only [hp.1, hp.2, h3]
    refine ⟨trivial, ?_, ?_⟩ <;>
      simp [launchPullCall, buildPullCall, RuntimeCall.isStartContainer,
        RuntimeCall.isRemoveContainer, List.countP_cons]
  · intro launchId e hp h3 h4
    unfold startTrace
    simp only [hp.1, hp.2, h3, h4]
    refine ⟨trivial, ?_, ?_⟩ <;>
      simp [launchPullCall, buildPullCall, RuntimeCall.isStartContainer,
        RuntimeCall.isRemoveContainer, List.countP_cons]
  · intro launchId buildCid e hp h3 h4 h5
    unfold startTrace
    simp only [hp.1, hp.2, h3, h4, h5]
    refine ⟨trivial, ?_, ?_, ?_⟩ <;>
      simp [launchPullCall, buildPullCall, RuntimeCall.isRemoveContainer,
        List.countP_cons]

theorem start_failure_no_rollback_witness :
    (startTrace envW rtCreateFail cfgW).2
      = .error "Unable to create container" ∧
    (startTrace envW rtCreateFail cfgW).1.countP
      (fun c => c.isStartContainer) = 0 ∧
    (startTrace envW rtStartFail cfgW).2 = .error "Unable to start container" ∧
    (startTrace envW rtStartFail cfgW).1.countP
      (fun c => c.isRemoveContainer) = 0 := by
  have h1 := (start_failure_no_rollback envW rtCreateFail cfgW).1
    "Unable to create container" ⟨rfl, rfl⟩ rfl
  have h3 := (start_failure_no_rollback envW rtStartFail cfgW).2.2
    ((initOpts envW cfgW).name ++ "Id")
    ((buildOpts envW cfgW ((initOpts envW cfgW).name ++ "Id")).name ++ "Id")
    "Unable to start container" ⟨rfl, rfl⟩ rfl rfl rfl
  exact ⟨h1.1, h1.2.1, h3.1, h3.2.2.2⟩

/-- C5: `stop` issues exactly one `listContainers` query (first, filtered
by the `sdbuild` tracking label and including stopped containers), then
one `removeContainer` call with `{v: true, force: true}` per returned
container; zero matches means success with no removal issued. -/
theorem stop_list_then_remove (env : ExecutorConfig) (rt : Runtime)
    (buildId : Nat) :
    (stopTrace env rt buildId).1.take 1
      = [.listContainers (stopLabel env buildId) true] ∧
    (stopTrace env rt buildId).1.countP (fun c => c.isListContainers) = 1 ∧
    (∀ ids, rt.listContainersRes (stopLabel env buildId) = .ok ids →
      (stopTrace env rt buildId).1 =
        .listContainers (stopLabel env buildId) true ::
          ids.map (fun i => .removeContainer i true true)) ∧
    (rt.listContainersRes (stopLabel env buildId) = .ok [] →
      stopTrace env rt buildId
        = ([.listContainers (stopLabel env buildId) true], .ok ())) := by
  unfold stopTrace
  rcases hl : rt.listContainersRes (stopLabel env buildId) with e | ids <;>
    simp only [hl]
  · refine ⟨rfl, by simp [RuntimeCall.isListContainers], ?_, ?_⟩
    · intro ids hc
      exact Except.noConfusion hc
    · intro hc
      exact Except.noConfusion hc
  · refine ⟨rfl, ?_, ?_, ?_⟩
    · simp only [List.countP_cons]
      rw [List.countP_eq_zero.mpr]
      · rfl
      · intro c hc
        rcases List.mem_map.mp hc with ⟨i, -, hi⟩
        rw [← hi]
        simp [RuntimeCall.isListContainers]
    · intro ids' hc
      cases Except.ok.inj hc
      rfl
    · intro hc
      cases Except.ok.inj hc
      rfl

theorem stop_list_then_remove_witness :
    (stopTrace envW rtStop2 1992).1 =
      [.listContainers (stopLabel envW 1992) true,
       .removeContainer "c1" true true, .removeContainer "c2" true true] ∧
    stopTrace envW rtAllOk 1992
      = ([.listContainers (stopLabel envW 1992) true], .ok ()) :=
  ⟨(stop_list_then_remove envW rtStop2 1992).2.2.1 ["c1", "c2"] rfl,
   (stop_list_then_remove envW rtAllOk 1992).2.2.2 rfl⟩

/-- C6: the trace of one `start` is always a prefix of
pulls-then-create-init-then-create-build-then-start; both pulls are
issued unconditionally (they are dispatched concurrently, so neither
waits for the other's outcome), and unless both pulls succeeded the
trace stops right after them, with no container created. -/
theorem start_ordering (env : ExecutorConfig) (rt : Runtime)
    (cfg : StartConfig) :
    ∃ launchId buildCid,
      (startTrace env rt cfg).1.take 2
        = [launchPullCall env, buildPullCall cfg] ∧
      List.IsPrefix (startTrace env rt cfg).1
        [launchPullCall env, buildPullCall cfg,
         .createContainer (initOpts env cfg),
         .createContainer (buildOpts env cfg launchId),
         .startContainer buildCid] ∧
      (pullsOk env rt cfg ∨
        (startTrace env rt cfg).1 = [launchPullCall env, buildPullCall cfg]) := by
  unfold startTrace
  rcases h1 : rt.createImageRes env.launchImage env.launchVersion
      with e1 | u1
  · simp only [h1]
    exact ⟨"", "", rfl, ⟨_, rfl⟩, Or.inr trivial⟩
  rcases h2 : rt.createImageRes (resolveBuildImage cfg.container).1
      (resolveBuildImage cfg.container).2 with e2 | u2
  · simp only [h1, h2]
    exact ⟨"", "", rfl, ⟨_, rfl⟩, Or.inr trivial⟩
  simp only [h1, h2]
  have hok : pullsOk env rt cfg := ⟨h1, h2⟩
  rcases h3 : rt.createContainerRes (initOpts env cfg) with e3 | launchId <;>
    simp only [h3]
  · exact ⟨"", "", rfl, ⟨_, rfl⟩, Or.inl hok⟩
  rcases h4 : rt.createContainerRes (buildOpts env cfg launchId)
      with e4 | buildCid <;> simp only [h4]
  · exact ⟨launchId, "", rfl, ⟨_, rfl⟩, Or.inl hok⟩
  rcases h5 : rt.startContainerRes buildCid with e5 | u5 <;> simp only [h5]
  · exact ⟨launchId, buildCid, rfl, ⟨[], List.append_nil _⟩, Or.inl hok⟩
  · exact ⟨launchId, buildCid, rfl, ⟨[], List.append_nil _⟩, Or.inl hok⟩

/-- C7: the support container is named `prefix + buildId + "-init"`, the
build container `prefix + buildId + "-build"`, both carry the tracking
label `sdbuild = prefix + buildId`, and `stop` queries exactly that
label value. -/
theorem naming_and_tracking_label (env : ExecutorConfig) (cfg : StartConfig)
    (launchId : String) :
    (initOpts env cfg).name
      = env.namePrefix ++ toString cfg.buildId ++ "-init" ∧
    (buildOpts env cfg launchId).name
      = env.namePrefix ++ toString cfg.buildId ++ "-build" ∧
    (initOpts env cfg).sdbuild = env.namePrefix ++ toString cfg.buildId ∧
    (buildOpts env cfg launchId).sdbuild = (initOpts env cfg).sdbuild ∧
    stopLabel env cfg.buildId = "sdbuild=" ++ (initOpts env cfg).sdbuild :=
  ⟨rfl, rfl, rfl, rfl,
   String.append_assoc "sdbuild=" env.namePrefix (toString cfg.buildId)⟩

/-- C8: the build container's single joined command string carries the
quoted auth token, the api, store and ui endpoint URIs, the build id, and
the timeout read from the `screwdriver.cd/timeout` annotation, which
defaults to 90 when the annotation is absent. -/
theorem build_cmd_carries (env : ExecutorConfig) (cfg : StartConfig)
    (launchId : String) :
    (buildOpts env cfg launchId).Cmd = some [String.intercalate " "
      ["/opt/sd/run.sh", "\"" ++ cfg.token ++ "\"", env.ecosystem.api,
       env.ecosystem.store, timeoutStr (buildTimeout (timeoutAnn cfg)),
       toString cfg.buildId, env.ecosystem.ui]] ∧
    (timeoutAnn cfg = none → buildTimeout (timeoutAnn cfg) = some 90) ∧
    (∀ v, timeoutAnn cfg = some v → v.falsy = false →
      buildTimeout (timeoutAnn cfg) = parseIntJs v) := by
  refine ⟨rfl, fun h => by rw [h]; rfl, fun v h hf => by
    rw [h]; simp [buildTimeout, hf]⟩

theorem build_cmd_carries_witness :
    (buildOpts envW cfgAnn5 "launcherID").Cmd
      = some ["/opt/sd/run.sh \"123456\" api store 5 1992 ui"] ∧
    buildTimeout (timeoutAnn cfgAnn5) = parseIntJs (.num 5) := by
  have h := build_cmd_carries envW cfgAnn5 "launcherID"
  refine ⟨?_, h.2.2 (.num 5) (by decide) (by decide)⟩
  rw [h.1]
  decide

/-- C9: the build container is always created privileged and always
bind-mounts the host's Docker control socket, for every executor
configuration and every build request. -/
theorem build_container_privileged (env : ExecutorConfig)
    (cfg : StartConfig) (launchId : String) :
    ∃ hc, (buildOpts env cfg launchId).hostConfig = some hc ∧
      hc.Privileged = true ∧
      "/var/run/docker.sock:/var/run/docker.sock" ∈ hc.Binds :=
  ⟨_, rfl, rfl, List.mem_singleton.mpr rfl⟩

/-- C10: a present-but-falsy `screwdriver.cd/timeout` annotation (an
explicit `0` or the empty string) yields the default timeout of 90, and
the created build container is identical to the one created with the
annotation absent. -/
theorem falsy_timeout_default (env : ExecutorConfig) (cfg : StartConfig)
    (launchId : String) (v : JsVal) (hv : v.falsy = true) :
    buildTimeout (some v) = some 90 ∧
    buildOpts env
        { cfg with annotations := [("screwdriver.cd/timeout", v)] } launchId
      = buildOpts env { cfg with annotations := [] } launchId := by
  have hbt : buildTimeout (some v) = some 90 := by
    simp [buildTimeout, hv]
    rfl
  refine ⟨hbt, ?_⟩
  have hta : timeoutAnn
      { cfg with annotations := [("screwdriver.cd/timeout", v)] } = some v := by
    simp [timeoutAnn, List.lookup]
  have htb : timeoutAnn
      { cfg with annotations := ([] : List (String × JsVal)) } = none := rfl
  simp [buildOpts, buildCmd, hta, htb, buildTimeout, hv]

theorem falsy_timeout_default_witness :
    buildTimeout (some (.num 0)) = some 90 ∧
    buildOpts envW
        { cfgW with annotations := [("screwdriver.cd/timeout", .num 0)] }
        "launcherID"
      = buildOpts envW { cfgW with annotations := [] } "launcherID" :=
  falsy_timeout_default envW cfgW "launcherID" (.num 0) (by decide)

end DockerExec
